import Mathlib

/-!
Verification development for the Pet Empire game-economy rules.

This file gives a shallow embedding of the rule-evaluator layer of the
repository (src/bot): the progression calculator, mission resolver, raid
resolver, achievement tracker and the pet-transfer operation, together with
theorems settling the frozen claims about them.

Conventions of the embedding:
* Python ints become `Nat` (or `Int` where the source can go negative).
* Python floats are modelled by exact rationals: `1.1` as `11/10`, `0.05` as
  `5/100`, and `int(x)` applied to a non-negative float product as the floor,
  which for natural numbers is plain `Nat` division (e.g. `int(100 * 1.1 **
  level)` becomes `100 * 11 ^ level / 10 ^ level`).
* `datetime` timestamps become `Nat` seconds; `.date()` comparison becomes
  comparison of `t / 86400`.
* Random draws become explicit parameters (the drawn boolean, the drawn
  offset, the chosen index), so every function is a pure function of its
  inputs.
* Raising `ValueError` becomes returning an `Except.error`/`false` result
  carrying the state as it stands at the raise point, so that "no mutation
  before the raise" is a provable property rather than a modelling artifact.
-/

/-- The six ordered rarity tiers (`GameConstants.RARITIES` keys). -/
inductive Rarity where
  | common
  | uncommon
  | rare
  | epic
  | legendary
  | mythical
deriving DecidableEq, Repr

/-- Mission status strings: `active`, `completed`, `failed`, `cancelled`. -/
inductive MStatus where
  | active
  | completed
  | failed
  | cancelled
deriving DecidableEq, Repr

/-- One entry of `GameConstants.MISSION_TYPES`. -/
structure MissionTypeData where
  duration : Nat
  base_reward : Nat
  exp_reward : Nat
  fail_chance : ℚ
deriving DecidableEq

namespace GameConstants

/-- `GameConstants.EXP_PER_LEVEL = 100`. -/
def EXP_PER_LEVEL : Nat := 100

/-- `GameConstants.EVOLUTION_LEVELS = [10, 25, 50, 75, 100]`. -/
def EVOLUTION_LEVELS : List Nat := [10, 25, 50, 75, 100]

/-- `GameConstants.RAID_COOLDOWN = 21600` seconds. -/
def RAID_COOLDOWN : Nat := 21600

/-- `GameConstants.RAID_SHIELD_DURATION = 3600` seconds. -/
def RAID_SHIELD_DURATION : Nat := 3600

/-- `GameConstants.MISSION_TYPES`: the four mission tiers keyed by string;
`none` for an invalid key (a dict lookup miss). Fail chances `0.05`, `0.15`,
`0.25`, `0.30` are the exact rationals. -/
def MISSION_TYPES : String → Option MissionTypeData
  | "quick" => some ⟨1800, 50, 20, 5/100⟩
  | "medium" => some ⟨10800, 200, 80, 15/100⟩
  | "long" => some ⟨28800, 800, 300, 25/100⟩
  | "epic" => some ⟨43200, 2000, 800, 30/100⟩
  | _ => none

/-- `GameConstants.TRAP_TYPES`: `(cost, defense_bonus)` keyed by string. -/
def TRAP_TYPES : String → Option (Nat × Nat)
  | "basic_wall" => some (100, 10)
  | "alarm" => some (500, 15)
  | "electric_fence" => some (2000, 25)
  | "laser_grid" => some (10000, 50)
  | _ => none

end GameConstants

/-- The `Pet` record (`bot/database/models.py`), restricted to the fields the
rule evaluators read or write. -/
structure Pet where
  id : Nat
  owner_id : Nat
  rarity : Rarity
  level : Nat
  exp : Nat
  power : Nat
  income_per_hour : Nat
  stamina : Nat
  loyalty : Nat
  is_shiny : Bool
  evolution_stage : Nat
  is_on_mission : Bool
  is_defending : Bool
  fatigue_until : Option Nat
  obtained_from : String
deriving DecidableEq

/-- The `User` record (`bot/database/models.py`), restricted to the fields the
rule evaluators read or write. `traps` is the JSON dict `{trap_type: level}`
as an association list. -/
structure User where
  user_id : Nat
  level : Nat
  exp : Nat
  coins : Nat
  stars : Nat
  pet_slots : Nat
  raids_won : Nat
  raids_lost : Nat
  defenses_won : Nat
  defenses_lost : Nat
  free_raids_today : Int
  last_raid_reset : Option Nat
  raid_shield_until : Option Nat
  traps : List (String × Nat)
deriving DecidableEq

/-- The `Mission` record (`bot/database/models.py`). -/
structure Mission where
  user_id : Nat
  pet_id : Nat
  mission_type : String
  mission_name : String
  started_at : Nat
  complete_at : Nat
  reward_coins : Nat
  reward_exp : Nat
  status : MStatus
deriving DecidableEq

/-- `PetGenerator.calculate_level_up_requirements`: `int(100 * 1.1 **
current_level)`, i.e. the floor of `100 * (11/10) ^ level`. -/
def calculate_level_up_requirements (current_level : Nat) : Nat :=
  GameConstants.EXP_PER_LEVEL * 11 ^ current_level / 10 ^ current_level

/-- `PetGenerator.can_level_up`. -/
def can_level_up (current_exp current_level : Nat) : Bool :=
  calculate_level_up_requirements current_level ≤ current_exp

/-- The dictionary returned by `PetService.add_exp_to_pet`. -/
structure AddExpResult where
  levels_gained : Nat
  new_level : Nat
  new_power : Nat
  new_income : Nat
  evolved : Bool
deriving DecidableEq

/-- `PetService.add_exp_to_pet`: adds the experience, then enters the
`while PetGenerator.can_level_up(pet.exp, pet.level) and pet.level <
GameConstants.MAX_PET_LEVEL` loop. The `and` short-circuits: when
`can_level_up` is false the loop exits without reading the attribute and the
function returns the zero-level-up dictionary (its `evolved` entry
`levels_gained > 0 and pet.level in EVOLUTION_LEVELS` is `False` by the same
short-circuit). When `can_level_up` is true the guard evaluates
`GameConstants.MAX_PET_LEVEL` — an attribute `bot/config.py` never defines
(only `Settings.max_pet_level` exists) — so the call raises `AttributeError`
before any level-up; the loop body of `pet_service.py` lines 97-109 is
unreachable. -/
def add_exp_to_pet (pet : Pet) (exp_amount : Nat) :
    Except String (Pet × AddExpResult) :=
  let pet0 := { pet with exp := pet.exp + exp_amount }
  if can_level_up pet0.exp pet0.level then
    .error "AttributeError: GameConstants has no attribute MAX_PET_LEVEL"
  else
    .ok (pet0, ⟨0, pet0.level, pet0.power, pet0.income_per_hour, false⟩)

/-- The rarity bonus table inside `PetGenerator.generate_mission_rewards`. -/
def rarity_bonus : Rarity → ℚ
  | .common => 1
  | .uncommon => 12/10
  | .rare => 15/10
  | .epic => 2
  | .legendary => 3
  | .mythical => 5

/-- `PetGenerator.generate_mission_rewards`: `(coins, exp)` with multiplier
`(1 + level * 0.05) * rarity_bonus`, each reward truncated by `int(...)`. -/
def generate_mission_rewards (md : MissionTypeData) (pet_level : Nat)
    (pet_rarity : Rarity) : Nat × Nat :=
  let multiplier : ℚ := (1 + (pet_level : ℚ) * (5/100)) * rarity_bonus pet_rarity
  ((⌊(md.base_reward : ℚ) * multiplier⌋).toNat, (⌊(md.exp_reward : ℚ) * multiplier⌋).toNat)

/-- `PetGenerator.calculate_mission_success_chance`: `none` models the
`KeyError` of an invalid mission-type key. The source's
`stamina_modifier = 1.0 if pet_stamina >= 50 else pet_stamina / 50`,
`level_modifier = max(0.5, 1.0 - pet_level * 0.005)`,
`final_fail_chance = base_fail_chance * level_modifier * (2 - stamina_modifier)`
and `success_chance = 1.0 - min(final_fail_chance, 0.5)` are reproduced in
exact rational arithmetic. -/
def calculate_mission_success_chance (pet_stamina pet_level : Nat)
    (mission_type : String) : Option ℚ :=
  (GameConstants.MISSION_TYPES mission_type).map fun md =>
    let base_fail_chance := md.fail_chance
    let stamina_modifier : ℚ := if 50 ≤ pet_stamina then 1 else (pet_stamina : ℚ) / 50
    let level_modifier : ℚ := max (1/2) (1 - (pet_level : ℚ) * (5/1000))
    let final_fail_chance := base_fail_chance * level_modifier * (2 - stamina_modifier)
    1 - min final_fail_chance (1/2)

/-- `MissionService.start_mission`. The guards (`is_on_mission`,
`is_defending`, unexpired fatigue, invalid mission type) all raise before any
mutation in the source, so the error branches are reached with the pet still
in its input state. `mission_name` stands for the random draw of
`get_random_mission_name`; `now` for `datetime.now()`. On success the pet is
marked busy and the active mission record is produced. -/
def start_mission (now : Nat) (pet : Pet) (mission_type : String)
    (mission_name : String) : Pet × Except String Mission :=
  if pet.is_on_mission then (pet, .error "Pet is already on a mission")
  else if pet.is_defending then (pet, .error "Pet is currently defending")
  else if (match pet.fatigue_until with
           | some t => decide (now < t)
           | none => false) then (pet, .error "Pet is too tired")
  else
    match GameConstants.MISSION_TYPES mission_type with
    | none => (pet, .error "Invalid mission type")
    | some md =>
      let rewards := generate_mission_rewards md pet.level pet.rarity
      let mission : Mission :=
        { user_id := pet.owner_id, pet_id := pet.id, mission_type := mission_type,
          mission_name := mission_name, started_at := now,
          complete_at := now + md.duration, reward_coins := rewards.1,
          reward_exp := rewards.2, status := MStatus.active }
      ({ pet with is_on_mission := true }, .ok mission)

/-- The dictionary returned by `MissionService.complete_mission` (the
`level_up_info` sub-dictionary is kept as the levels gained). -/
structure CompleteMissionResult where
  success : Bool
  coins : Nat
  exp : Nat
  levels_gained : Nat
deriving DecidableEq

/-- `MissionService.complete_mission`. Guards: mission not active, completion
time still in the future (`mission.complete_at > datetime.now()`), pet or
user record missing. `draw_success` models `random.random() <
success_chance`. On success: coins and a tenth of the experience go to the
user, the full experience reward goes through `add_exp_to_pet` — whose
`AttributeError` (see `add_exp_to_pet`) propagates, so the status is then
never assigned — and the mission becomes `completed`. On failure: `int(reward_coins * 0.2)` coins, one hour of
fatigue, the mission becomes `failed`. Either branch clears
`is_on_mission`. -/
def complete_mission (now : Nat) (draw_success : Bool) (mission : Mission)
    (petOpt : Option Pet) (userOpt : Option User) :
    Except String (Mission × Pet × User × CompleteMissionResult) :=
  if mission.status ≠ MStatus.active then .error "Mission is not active"
  else if now < mission.complete_at then .error "Mission is not complete yet"
  else
    match petOpt with
    | none => .error "Pet not found"
    | some pet =>
      match userOpt with
      | none => .error "User not found"
      | some user =>
        if draw_success then
          let user' := { user with coins := user.coins + mission.reward_coins,
                                   exp := user.exp + mission.reward_exp / 10 }
          match add_exp_to_pet pet mission.reward_exp with
          | .error e => .error e
          | .ok r =>
            let pet' := { r.1 with is_on_mission := false }
            .ok ({ mission with status := MStatus.completed }, pet', user',
              ⟨true, mission.reward_coins, mission.reward_exp,
                r.2.levels_gained⟩)
        else
          let reduced_coins := mission.reward_coins * 2 / 10
          let user' := { user with coins := user.coins + reduced_coins }
          let pet' := { pet with fatigue_until := some (now + 3600),
                                 is_on_mission := false }
          .ok ({ mission with status := MStatus.failed }, pet', user',
            ⟨false, reduced_coins, 0, 0⟩)

/-- `MissionService.cancel_mission`: returns `false` (everything unchanged)
when the mission is not active; otherwise frees the pet, gives it one hour of
fatigue, and marks the mission `cancelled`. -/
def cancel_mission (now : Nat) (mission : Mission) (petOpt : Option Pet) :
    Bool × Mission × Option Pet :=
  if mission.status ≠ MStatus.active then (false, mission, petOpt)
  else
    let petOpt' := petOpt.map fun pet =>
      { pet with is_on_mission := false, fatigue_until := some (now + 3600) }
    (true, { mission with status := MStatus.cancelled }, petOpt')

/-- `MissionService.instant_complete_mission`. The cost is `max(20,
int(hours_left * 10))` where `hours_left` may be negative; `int(...)`
truncates toward zero, modelled by `Int.tdiv`. Guards raise before any
mutation. On success the Stars are deducted and `complete_at` is set to now;
the status is never touched. -/
def instant_complete_mission (now : Nat) (mission : Mission) (user : User) :
    (Mission × User) × Except String Int :=
  if mission.status ≠ MStatus.active then
    ((mission, user), .error "Mission is not active")
  else
    let cost : Int := max 20 (Int.tdiv (((mission.complete_at : Int) - (now : Int)) * 10) 3600)
    if (user.stars : Int) < cost then ((mission, user), .error "Not enough Stars")
    else
      (({ mission with complete_at := now },
        { user with stars := user.stars - cost.toNat }), .ok cost)

/-- The per-mission state bundle the background sweep operates on. -/
structure MissionEnv where
  mission : Mission
  pet : Option Pet
  user : Option User
deriving DecidableEq

/-- One candidate of `MissionService.check_and_autocomplete_missions`: the
sweep selects missions that are `active` with `complete_at <= now` and runs
`complete_mission` on each, catching and logging any exception (so a failing
item is left as it is). Missions not selected are untouched. -/
def autocomplete_one (now : Nat) (draw_success : Bool) (e : MissionEnv) : MissionEnv :=
  if e.mission.status = MStatus.active ∧ e.mission.complete_at ≤ now then
    match complete_mission now draw_success e.mission e.pet e.user with
    | .ok (m, p, u, _) => ⟨m, some p, some u⟩
    | .error _ => e
  else e

/-- `MissionService.check_and_autocomplete_missions` over a list of candidate
states, with `draws` supplying each mission's random outcome draw. -/
def check_and_autocomplete_missions (now : Nat) (draws : MissionEnv → Bool)
    (es : List MissionEnv) : List MissionEnv :=
  es.map fun e => autocomplete_one now (draws e) e

/-- Outcome of `RaidService.can_raid_target`. The source's date-rollover
branch assigns `GameConstants.DAILY_FREE_RAIDS`, an attribute that does not
exist in `bot/config.py` (`daily_free_raids` lives on `Settings`, not on
`GameConstants`), so reaching that branch raises `AttributeError` before any
mutation; it is modelled by the `exception` constructor. A `verdict` carries
the attacker record as it stands when the function returns, because the
missing-`last_raid_reset` branch mutates and commits it before the
remaining checks can still reject. -/
inductive CanRaidResult where
  | exception (msg : String)
  | verdict (ok : Bool) (msg : Option String) (attacker : User)
deriving DecidableEq

/-- The checks of `RaidService.can_raid_target` after the daily-reset
handling, with `att` the (possibly just initialized) attacker record in
scope: exhausted free-raid counter, per-target cooldown (`Raid.timestamp >
now - RAID_COOLDOWN`), defender shield. -/
def can_raid_checks (now : Nat) (att : User) (last_raid_between : Option Nat)
    (defender : Option User) : CanRaidResult :=
  if att.free_raids_today ≤ 0 then
    .verdict false (some "no free raids left") att
  else
    let on_cooldown := match last_raid_between with
      | some t => decide (now < t + GameConstants.RAID_COOLDOWN)
      | none => false
    if on_cooldown then .verdict false (some "target on cooldown") att
    else
      let shielded := match defender with
        | some d => match d.raid_shield_until with
          | some s => decide (now < s)
          | none => false
        | none => false
      if shielded then .verdict false (some "target is shielded") att
      else .verdict true none att

/-- `RaidService.can_raid_target`. `last_raid_between` is the timestamp of
the most recent raid of this ordered (attacker, defender) pair inside the
cooldown query's reach, `defender` the defender's record. Checks, in source
order: self-raid, lazy daily-reset handling (see `CanRaidResult`), then
`can_raid_checks`. -/
def can_raid_target (now : Nat) (attacker_id defender_id : Nat) (attacker : User)
    (last_raid_between : Option Nat) (defender : Option User) : CanRaidResult :=
  if attacker_id = defender_id then
    .verdict false (some "cannot attack yourself") attacker
  else
    match attacker.last_raid_reset with
    | some t =>
      if t / 86400 < now / 86400 then
        .exception "AttributeError: GameConstants has no attribute DAILY_FREE_RAIDS"
      else can_raid_checks now attacker last_raid_between defender
    | none =>
      can_raid_checks now { attacker with last_raid_reset := some now }
        last_raid_between defender

/-- The win-chance computation of `RaidService.execute_raid` (the lines from
`total_power = attack_power + defense_power` to the clamp): base chance
`attack_power / total_power` (`0.5` when both powers are zero), plus the
drawn `random.uniform(-0.15, 0.15)` offset, clamped to `[0.1, 0.9]`. -/
def execute_raid_win_chance (attack_power defense_power : Nat) (offset : ℚ) : ℚ :=
  let total_power := attack_power + defense_power
  let win_chance : ℚ :=
    if total_power = 0 then 1/2 else (attack_power : ℚ) / (total_power : ℚ)
  max (1/10) (min (9/10) (win_chance + offset))

/-- `PetService.get_stealable_pets`: the defender's pets that are not on a
mission and not of rarity `Mythical`. -/
def get_stealable_pets (pets : List Pet) (user_id : Nat) : List Pet :=
  pets.filter fun p =>
    p.owner_id == user_id && !p.is_on_mission && p.rarity != Rarity.mythical

/-- `PetService.transfer_pet`: refused (state untouched) when the new owner
is missing or `owner_pets_count >= new_owner.pet_slots`; otherwise the pet's
busy flags and fatigue are reset and ownership moves to `new_owner_id` with
`obtained_from := reason`. -/
def transfer_pet (pet : Pet) (new_owner : Option User) (new_owner_id : Nat)
    (owner_pets_count : Nat) (reason : String) : Bool × Pet :=
  match new_owner with
  | none => (false, pet)
  | some new_owner =>
    if new_owner.pet_slots ≤ owner_pets_count then (false, pet)
    else
      (true, { pet with is_on_mission := false, is_defending := false,
                        fatigue_until := none, owner_id := new_owner_id,
                        obtained_from := reason })

/-- `RaidService.buy_trap`: invalid trap key or insufficient coins raise
before any mutation; otherwise the cost `trap_cost * (current_level + 1)` is
deducted and the trap's level is bumped in the `traps` dict. -/
def buy_trap (user : User) (trap_type : String) : User × Except String Bool :=
  match GameConstants.TRAP_TYPES trap_type with
  | none => (user, .error "Invalid trap type")
  | some td =>
    let current_level := ((user.traps.lookup trap_type).getD 0)
    let cost := td.1 * (current_level + 1)
    if user.coins < cost then (user, .error "Not enough coins")
    else
      ({ user with coins := user.coins - cost,
                   traps := (trap_type, current_level + 1) ::
                     user.traps.filter (fun kv => kv.1 ≠ trap_type) },
       .ok true)

/-- The `Achievement` definition record (`bot/database/models.py`). -/
structure Achievement where
  id : Nat
  requirement_type : String
  requirement_value : Nat
  reward_coins : Nat
  reward_stars : Nat
deriving DecidableEq

/-- The `AchievementProgress` record: per-user counter and completed flag. -/
structure AchievementProgress where
  current_value : Nat
  completed : Bool
deriving DecidableEq

/-- The body of the `for achievement in achievements` loop of
`AchievementService.check_and_update_achievements`: skip when already
completed; otherwise add the increment and, when the counter reaches the
threshold, mark completed, pay the rewards, and report the achievement as
newly completed. -/
def update_achievement_progress (value_increment : Nat) (a : Achievement)
    (user : User) (p : AchievementProgress) :
    User × AchievementProgress × Bool :=
  if p.completed then (user, p, false)
  else
    let v := p.current_value + value_increment
    if a.requirement_value ≤ v then
      ({ user with coins := user.coins + a.reward_coins,
                   stars := user.stars + a.reward_stars },
       ⟨v, true⟩, true)
    else (user, ⟨v, false⟩, false)

/-- The loop of `AchievementService.check_and_update_achievements` over the
achievement definitions of the requested type. Progress records are a total
map from achievement id (a missing row is the lazily created
`current_value = 0`, not-completed record). Returns the updated user, the
updated progress map and the list of newly completed achievements. -/
def run_achievements (value_increment : Nat) :
    List Achievement → User → (Nat → AchievementProgress) →
    User × (Nat → AchievementProgress) × List Achievement
  | [], user, prog => (user, prog, [])
  | a :: rest, user, prog =>
    let step := update_achievement_progress value_increment a user (prog a.id)
    let r := run_achievements value_increment rest step.1
      (Function.update prog a.id step.2.1)
    (r.1, r.2.1, (if step.2.2 then [a] else []) ++ r.2.2)

/-- `AchievementService.check_and_update_achievements`: select the
definitions whose `requirement_type` matches and run the update loop. -/
def check_and_update_achievements (achievements : List Achievement)
    (achievement_type : String) (value_increment : Nat) (user : User)
    (prog : Nat → AchievementProgress) :
    User × (Nat → AchievementProgress) × List Achievement :=
  run_achievements value_increment
    (achievements.filter fun a => a.requirement_type == achievement_type)
    user prog

/-- Every configured mission tier has a non-negative base fail chance. -/
theorem MISSION_TYPES_fail_chance_nonneg (s : String) (md : MissionTypeData)
    (h : GameConstants.MISSION_TYPES s = some md) : 0 ≤ md.fail_chance := by
  unfold GameConstants.MISSION_TYPES at h
  split at h <;> (try (injection h with h1; subst h1; norm_num)) <;>
    exact Option.noConfusion h

/-- Closed form of `calculate_mission_success_chance` on a valid tier. -/
theorem calculate_mission_success_chance_eq (S L : Nat) (mt : String)
    (md : MissionTypeData) (hmd : GameConstants.MISSION_TYPES mt = some md) :
    calculate_mission_success_chance S L mt =
      some (1 - min (md.fail_chance * max (1/2) (1 - (L : ℚ) * (5/1000)) *
        (2 - (if 50 ≤ S then (1 : ℚ) else (S : ℚ) / 50))) (1/2)) := by
  unfold calculate_mission_success_chance
  rw [hmd]
  rfl

/-- C1: for every mission tier with base fail chance `f`, pet level `L` and
stamina `S ≤ 100`, the mission success probability computed before the random
draw is `1 - min(0.5, f * max(0.5, 1 - L*0.005) * (2 - (1 if S >= 50 else
S/50)))`, and it always lies in `[0.5, 1]`. -/
theorem c1_mission_success_probability (mission_type : String)
    (md : MissionTypeData)
    (hmd : GameConstants.MISSION_TYPES mission_type = some md)
    (L S : Nat) (hS : S ≤ 100) :
    calculate_mission_success_chance S L mission_type =
      some (1 - min (1/2)
        (md.fail_chance * max (1/2) (1 - (L : ℚ) * (5/1000)) *
          (2 - (if 50 ≤ S then (1 : ℚ) else (S : ℚ) / 50)))) ∧
    (∀ p, calculate_mission_success_chance S L mission_type = some p →
      1/2 ≤ p ∧ p ≤ 1) := by
  have hf : 0 ≤ md.fail_chance := MISSION_TYPES_fail_chance_nonneg _ _ hmd
  have heq := calculate_mission_success_chance_eq S L mission_type md hmd
  have hsm : (if 50 ≤ S then (1 : ℚ) else (S : ℚ) / 50) ≤ 2 := by
    split
    · norm_num
    · have hS100 : (S : ℚ) ≤ 100 := by exact_mod_cast hS
      linarith
  have hFnn : 0 ≤ md.fail_chance * max (1/2) (1 - (L : ℚ) * (5/1000)) *
      (2 - (if 50 ≤ S then (1 : ℚ) else (S : ℚ) / 50)) := by
    have h1 : (0 : ℚ) ≤ max (1/2) (1 - (L : ℚ) * (5/1000)) :=
      le_trans (by norm_num) (le_max_left _ _)
    have h2 : (0 : ℚ) ≤ 2 - (if 50 ≤ S then (1 : ℚ) else (S : ℚ) / 50) := by
      linarith
    exact mul_nonneg (mul_nonneg hf h1) h2
  refine ⟨by rw [heq, min_comm], ?_⟩
  intro p hp
  rw [heq] at hp
  have hp2 : p = 1 - min (md.fail_chance * max (1/2) (1 - (L : ℚ) * (5/1000)) *
      (2 - (if 50 ≤ S then (1 : ℚ) else (S : ℚ) / 50))) (1/2) :=
    (Option.some.inj hp).symm
  have hmin1 : min (md.fail_chance * max (1/2) (1 - (L : ℚ) * (5/1000)) *
      (2 - (if 50 ≤ S then (1 : ℚ) else (S : ℚ) / 50))) (1/2) ≤ 1/2 :=
    min_le_right _ _
  have hmin0 : 0 ≤ min (md.fail_chance * max (1/2) (1 - (L : ℚ) * (5/1000)) *
      (2 - (if 50 ≤ S then (1 : ℚ) else (S : ℚ) / 50))) (1/2) :=
    le_min hFnn (by norm_num)
  constructor <;> rw [hp2] <;> linarith

/-- Witness for C1 at the quick tier, level 10, stamina 30. -/
theorem c1_mission_success_probability_witness :
    calculate_mission_success_chance 30 10 "quick" =
      some (1 - min (1/2)
        ((5/100 : ℚ) * max (1/2) (1 - (10 : ℚ) * (5/1000)) *
          (2 - (if 50 ≤ (30 : Nat) then (1 : ℚ) else ((30 : Nat) : ℚ) / 50)))) ∧
    (∀ p, calculate_mission_success_chance 30 10 "quick" = some p →
      1/2 ≤ p ∧ p ≤ 1) :=
  c1_mission_success_probability "quick" ⟨1800, 50, 20, 5/100⟩ rfl 10 30
    (by norm_num)

/-- C2: the raid win probability is `attackPower / (attackPower +
defensePower)` (`0.5` when both are zero) plus the drawn offset, clamped to
`[0.10, 0.90]`; the clamp holds however lopsided the powers are. -/
theorem c2_raid_win_chance_clamped (attack_power defense_power : Nat)
    (offset : ℚ) (h1 : -(15/100) ≤ offset) (h2 : offset ≤ 15/100) :
    execute_raid_win_chance attack_power defense_power offset =
      max (1/10) (min (9/10)
        ((if attack_power + defense_power = 0 then (1 : ℚ)/2
          else (attack_power : ℚ) / ((attack_power : ℚ) + (defense_power : ℚ)))
          + offset)) ∧
    1/10 ≤ execute_raid_win_chance attack_power defense_power offset ∧
    execute_raid_win_chance attack_power defense_power offset ≤ 9/10 := by
  unfold execute_raid_win_chance
  refine ⟨?_, le_max_left _ _, max_le (by norm_num) (min_le_left _ _)⟩
  simp only [Nat.cast_add]

/-- Witness for C2 at a maximally lopsided raid. -/
theorem c2_raid_win_chance_clamped_witness :
    execute_raid_win_chance 1000000 0 (15/100) =
      max (1/10) (min (9/10)
        ((if 1000000 + 0 = 0 then (1 : ℚ)/2
          else ((1000000 : Nat) : ℚ) / (((1000000 : Nat) : ℚ) + ((0 : Nat) : ℚ)))
          + 15/100)) ∧
    1/10 ≤ execute_raid_win_chance 1000000 0 (15/100) ∧
    execute_raid_win_chance 1000000 0 (15/100) ≤ 9/10 :=
  c2_raid_win_chance_clamped 1000000 0 (15/100) (by norm_num) (by norm_num)

/-- A pet at the intended level cap with a small accumulator: the C3
failing input. -/
def c3pet : Pet :=
  ⟨1, 1, Rarity.common, 100, 5, 10, 10, 100, 50, false, 4, false, false,
   none, "egg"⟩

/-- C3 failing input evaluated on the embedded code: a capped pet whose
accumulator reaches `requirement(100)` is not left holding the excess
without error — the call raises `AttributeError`, because
`pet_service.py:96` reads `GameConstants.MAX_PET_LEVEL`, which `config.py`
defines only as `Settings.max_pet_level`. -/
theorem c3_level_cap_attribute_error :
    add_exp_to_pet c3pet (calculate_level_up_requirements c3pet.level)
      = .error "AttributeError: GameConstants has no attribute MAX_PET_LEVEL" :=
  rfl

/-- A level-9 pet with an empty experience accumulator, for C6. -/
def c6pet : Pet :=
  ⟨2, 1, Rarity.common, 9, 0, 5, 10, 100, 50, false, 0, false, false,
   none, "egg"⟩

/-- C6 counterexample: adding `requirement(9) = 235` experience to the
level-9 pet should, per the claim, return a result whose evolution flag
reports the evolution at level 10; instead the code raises `AttributeError`
and returns no result at all — the loop guard reads the missing
`GameConstants.MAX_PET_LEVEL` exactly when `can_level_up` is true. -/
theorem c6_counterexample :
    add_exp_to_pet c6pet 235
      = .error "AttributeError: GameConstants has no attribute MAX_PET_LEVEL" :=
  rfl

/-- C6 (amended): `add_exp_to_pet` returns a result exactly when the
accumulated experience stays below `requirement(level)` (otherwise it raises
`AttributeError`), and every returned result reports zero levels gained with
the `evolved` flag false and the pet unchanged apart from the larger
accumulator — in particular the evolution stage never increases, so the
returned flag matches the (never occurring) evolution trivially. -/
theorem c6_evolved_flag (pet : Pet) (exp_amount : Nat) :
    (add_exp_to_pet pet exp_amount
        = .error "AttributeError: GameConstants has no attribute MAX_PET_LEVEL"
      ↔ can_level_up (pet.exp + exp_amount) pet.level = true) ∧
    (∀ p r, add_exp_to_pet pet exp_amount = .ok (p, r) →
      r.evolved = false ∧ r.levels_gained = 0 ∧
      p.evolution_stage = pet.evolution_stage ∧
      p = { pet with exp := pet.exp + exp_amount }) := by
  constructor
  · unfold add_exp_to_pet
    cases hc : can_level_up (pet.exp + exp_amount) pet.level with
    | true => simp [hc]
    | false => simp [hc]
  · intro p r h
    unfold add_exp_to_pet at h
    dsimp only [] at h
    split at h
    · cases h
    · simp only [Except.ok.injEq, Prod.mk.injEq] at h
      obtain ⟨hp, hr⟩ := h
      subst hp
      subst hr
      exact ⟨rfl, rfl, rfl, rfl⟩

/-- Witness for the amended C6: a call that stays below the requirement
returns with zero levels gained and the evolution flag false. -/
theorem c6_evolved_flag_witness :
    (⟨0, 9, 5, 10, false⟩ : AddExpResult).evolved = false ∧
    (⟨0, 9, 5, 10, false⟩ : AddExpResult).levels_gained = 0 ∧
    (⟨2, 1, Rarity.common, 9, 10, 5, 10, 100, 50, false, 0, false, false,
      none, "egg"⟩ : Pet).evolution_stage = c6pet.evolution_stage ∧
    (⟨2, 1, Rarity.common, 9, 10, 5, 10, 100, 50, false, 0, false, false,
      none, "egg"⟩ : Pet) = { c6pet with exp := c6pet.exp + 10 } :=
  (c6_evolved_flag c6pet 10).2
    ⟨2, 1, Rarity.common, 9, 10, 5, 10, 100, 50, false, 0, false, false,
      none, "egg"⟩ ⟨0, 9, 5, 10, false⟩ rfl

/-- A level-5 pet with an empty experience accumulator and income 10/h. -/
def c7pet : Pet :=
  ⟨3, 1, Rarity.common, 5, 0, 5, 10, 100, 50, false, 0, false, false,
   none, "egg"⟩

/-- C7 counterexample: the level-5 pet gaining exactly `requirement(5) = 161`
experience does not receive the claimed +1 level, +2 power and *1.05 income —
the call raises `AttributeError` and no level-up happens, because
`pet_service.py:96` reads the nonexistent `GameConstants.MAX_PET_LEVEL`
exactly when `can_level_up` is true. -/
theorem c7_counterexample :
    add_exp_to_pet c7pet (calculate_level_up_requirements c7pet.level)
      = .error "AttributeError: GameConstants has no attribute MAX_PET_LEVEL" :=
  rfl

/-- C7 (amended): for every pet, gaining exactly `requirement(level)`
experience never yields a level-up: the accumulated experience reaches the
requirement, so the loop guard raises `AttributeError` and the call returns
no result (no level, power or income change is ever produced). -/
theorem c7_requirement_raises (pet : Pet) :
    add_exp_to_pet pet (calculate_level_up_requirements pet.level)
      = .error "AttributeError: GameConstants has no attribute MAX_PET_LEVEL" := by
  have h : can_level_up (pet.exp + calculate_level_up_requirements pet.level)
      pet.level = true :=
    decide_eq_true (Nat.le_add_left _ _)
  unfold add_exp_to_pet
  simp [h]

/-- C10: a transferred pet always arrives idle (`is_on_mission = false`,
`is_defending = false`, no fatigue) owned by the recipient, whatever its
previous state; and the transfer is refused with the pet unchanged when the
recipient already has at least as many pets as pet slots. -/
theorem c10_transfer_pet (pet : Pet) (new_owner : User) (new_owner_id : Nat)
    (owner_pets_count : Nat) (reason : String) :
    (∀ pet', transfer_pet pet (some new_owner) new_owner_id owner_pets_count
        reason = (true, pet') →
      pet'.is_on_mission = false ∧ pet'.is_defending = false ∧
      pet'.fatigue_until = none ∧ pet'.owner_id = new_owner_id ∧
      pet'.obtained_from = reason) ∧
    (new_owner.pet_slots ≤ owner_pets_count →
      transfer_pet pet (some new_owner) new_owner_id owner_pets_count reason
        = (false, pet)) := by
  constructor
  · intro pet' h
    simp only [transfer_pet] at h
    split at h
    · exact absurd (Prod.ext_iff.mp h).1 (by simp)
    · simp only [Prod.mk.injEq, true_and] at h
      subst h
      exact ⟨rfl, rfl, rfl, rfl, rfl⟩
  · intro h
    simp only [transfer_pet]
    rw [if_pos h]

/-- Witness for C10: a busy, fatigued pet arrives idle when the recipient has
a free slot, and the transfer is refused when the recipient is full. -/
def c10pet : Pet :=
  ⟨4, 1, Rarity.rare, 3, 7, 9, 20, 80, 90, false, 0, true, false,
   some 99999, "egg"⟩

/-- A recipient with five pet slots, for the C10 witness. -/
def c10user : User :=
  ⟨7, 1, 0, 1000, 0, 5, 0, 0, 0, 0, 5, none, none, []⟩

/-- Witness for C10 at concrete inputs: both the success branch and the
full-recipient refusal. -/
theorem c10_transfer_pet_witness :
    ((transfer_pet c10pet (some c10user) 7 0 "trade").2.is_on_mission = false ∧
     (transfer_pet c10pet (some c10user) 7 0 "trade").2.is_defending = false ∧
     (transfer_pet c10pet (some c10user) 7 0 "trade").2.fatigue_until = none ∧
     (transfer_pet c10pet (some c10user) 7 0 "trade").2.owner_id = 7 ∧
     (transfer_pet c10pet (some c10user) 7 0 "trade").2.obtained_from = "trade") ∧
    transfer_pet c10pet (some c10user) 7 5 "raid" = (false, c10pet) := by
  constructor
  · exact (c10_transfer_pet c10pet c10user 7 0 "trade").1
      (transfer_pet c10pet (some c10user) 7 0 "trade").2 (by decide)
  · exact (c10_transfer_pet c10pet c10user 7 5 "raid").2 (by decide)

/-- C9: every pet in the stealable list — hence every possible steal target,
whichever index the uniform draw picks — belongs to the defender, is not on a
mission, and is not of the top (Mythical) rarity; and conversely every such
pet of the defender is in the candidate list. -/
theorem c9_stealable_pets (pets : List Pet) (user_id : Nat) :
    (∀ p, p ∈ get_stealable_pets pets user_id ↔
      p ∈ pets ∧ p.owner_id = user_id ∧ p.is_on_mission = false ∧
      p.rarity ≠ Rarity.mythical) ∧
    (∀ k (hk : k < (get_stealable_pets pets user_id).length),
      ((get_stealable_pets pets user_id).get ⟨k, hk⟩) ∈ pets ∧
      ((get_stealable_pets pets user_id).get ⟨k, hk⟩).owner_id = user_id ∧
      ((get_stealable_pets pets user_id).get ⟨k, hk⟩).is_on_mission = false ∧
      ((get_stealable_pets pets user_id).get ⟨k, hk⟩).rarity ≠ Rarity.mythical) := by
  have hmem : ∀ p, p ∈ get_stealable_pets pets user_id ↔
      p ∈ pets ∧ p.owner_id = user_id ∧ p.is_on_mission = false ∧
      p.rarity ≠ Rarity.mythical := by
    intro p
    unfold get_stealable_pets
    rw [List.mem_filter]
    simp [Bool.and_eq_true, decide_eq_true_eq, and_assoc]
  refine ⟨hmem, ?_⟩
  intro k hk
  exact (hmem _).mp (List.get_mem _ k hk)

/-- A concrete defender pet list for the C9 witness: a Mythical idle pet, a
common pet away on a mission, and one stealable common pet. -/
def c9pets : List Pet :=
  [⟨10, 1, Rarity.mythical, 50, 0, 500, 2000, 100, 50, false, 2, false, true,
    none, "egg"⟩,
   ⟨11, 1, Rarity.common, 3, 0, 9, 10, 100, 50, false, 0, true, false,
    none, "egg"⟩,
   ⟨12, 1, Rarity.common, 2, 0, 7, 10, 100, 50, false, 0, false, false,
    none, "trade"⟩]

/-- Witness for C9: the only candidate in the concrete list is the idle
common pet; whatever the draw picks is never Mythical. -/
theorem c9_stealable_pets_witness :
    ((get_stealable_pets c9pets 1).get ⟨0, by decide⟩) ∈ c9pets ∧
    ((get_stealable_pets c9pets 1).get ⟨0, by decide⟩).owner_id = 1 ∧
    ((get_stealable_pets c9pets 1).get ⟨0, by decide⟩).is_on_mission = false ∧
    ((get_stealable_pets c9pets 1).get ⟨0, by decide⟩).rarity ≠ Rarity.mythical :=
  (c9_stealable_pets c9pets 1).2 0 (by decide)

/-- A successful `complete_mission` call starts from an active mission and
ends with it `completed` or `failed`. -/
theorem complete_mission_ok (now : Nat) (draw_success : Bool) (mission : Mission)
    (petOpt : Option Pet) (userOpt : Option User) (m' : Mission) (p' : Pet)
    (u' : User) (r : CompleteMissionResult)
    (h : complete_mission now draw_success mission petOpt userOpt
      = .ok (m', p', u', r)) :
    mission.status = MStatus.active ∧
    (m'.status = MStatus.completed ∨ m'.status = MStatus.failed) := by
  unfold complete_mission at h
  by_cases h1 : mission.status ≠ MStatus.active
  · rw [if_pos h1] at h
    simp at h
  · rw [if_neg h1] at h
    have hact : mission.status = MStatus.active := not_ne_iff.mp h1
    by_cases h2 : now < mission.complete_at
    · rw [if_pos h2] at h
      simp at h
    · rw [if_neg h2] at h
      cases petOpt with
      | none => simp at h
      | some pet =>
        cases userOpt with
        | none => simp at h
        | some user =>
          cases draw_success with
          | false =>
            simp only [Bool.false_eq_true, if_false, Except.ok.injEq,
              Prod.mk.injEq] at h
            refine ⟨hact, Or.inr ?_⟩
            rw [← h.1]
          | true =>
            simp only [if_true] at h
            split at h
            · cases h
            · simp only [Except.ok.injEq, Prod.mk.injEq] at h
              refine ⟨hact, Or.inl ?_⟩
              rw [← h.1]

/-- C4: mission status transitions are one-directional. From any terminal
status (`completed`, `failed`, `cancelled`), `complete_mission`,
`cancel_mission`, `instant_complete_mission` and the background sweep all
leave the record untouched; a successful completion moves an `active`
mission to exactly `completed` or `failed`, a successful cancellation to
`cancelled`, the instant-complete never touches the status, and the sweep
either leaves the status or moves `active` to `completed`/`failed`. -/
theorem c4_mission_status_one_directional (now : Nat) (draw_success : Bool)
    (mission : Mission) (petOpt : Option Pet) (userOpt : Option User)
    (user : User) (e : MissionEnv) :
    (mission.status ≠ MStatus.active →
      complete_mission now draw_success mission petOpt userOpt
        = .error "Mission is not active" ∧
      cancel_mission now mission petOpt = (false, mission, petOpt) ∧
      instant_complete_mission now mission user
        = ((mission, user), .error "Mission is not active")) ∧
    (∀ m' p' u' r, complete_mission now draw_success mission petOpt userOpt
        = .ok (m', p', u', r) →
      mission.status = MStatus.active ∧
      (m'.status = MStatus.completed ∨ m'.status = MStatus.failed)) ∧
    (∀ b m' po', cancel_mission now mission petOpt = (b, m', po') →
      (b = true → mission.status = MStatus.active ∧
        m'.status = MStatus.cancelled) ∧
      (b = false → m' = mission)) ∧
    (∀ c, (instant_complete_mission now mission user).2 = .ok c →
      (instant_complete_mission now mission user).1.1.status = mission.status ∧
      mission.status = MStatus.active) ∧
    (e.mission.status ≠ MStatus.active →
      autocomplete_one now draw_success e = e) ∧
    ((autocomplete_one now draw_success e).mission.status = e.mission.status ∨
      (e.mission.status = MStatus.active ∧
        ((autocomplete_one now draw_success e).mission.status = MStatus.completed ∨
         (autocomplete_one now draw_success e).mission.status = MStatus.failed))) := by
  refine ⟨?_, ?_, ?_, ?_, ?_, ?_⟩
  · intro h
    refine ⟨?_, ?_, ?_⟩
    · unfold complete_mission
      rw [if_pos h]
    · unfold cancel_mission
      rw [if_pos h]
    · unfold instant_complete_mission
      rw [if_pos h]
  · intro m' p' u' r h
    exact complete_mission_ok now draw_success mission petOpt userOpt m' p' u' r h
  · intro b m' po' h
    unfold cancel_mission at h
    by_cases h1 : mission.status ≠ MStatus.active
    · rw [if_pos h1] at h
      simp only [Prod.mk.injEq] at h
      constructor
      · intro hb
        rw [← h.1] at hb
        simp at hb
      · intro _
        exact h.2.1.symm
    · rw [if_neg h1] at h
      simp only [Prod.mk.injEq] at h
      constructor
      · intro _
        refine ⟨not_ne_iff.mp h1, ?_⟩
        rw [← h.2.1]
      · intro hb
        rw [← h.1] at hb
        simp at hb
  · intro c h
    by_cases h1 : mission.status ≠ MStatus.active
    · exfalso
      unfold instant_complete_mission at h
      rw [if_pos h1] at h
      simp at h
    · refine ⟨?_, not_ne_iff.mp h1⟩
      unfold instant_complete_mission
      rw [if_neg h1]
      dsimp only []
      split
      · rfl
      · rfl
  · intro h
    unfold autocomplete_one
    rw [if_neg]
    exact fun hc => h hc.1
  · by_cases hsel : e.mission.status = MStatus.active ∧ e.mission.complete_at ≤ now
    · unfold autocomplete_one
      rw [if_pos hsel]
      cases hres : complete_mission now draw_success e.mission e.pet e.user with
      | error msg => exact Or.inl rfl
      | ok res =>
        obtain ⟨m, p, u, r⟩ := res
        have hok := complete_mission_ok now draw_success e.mission e.pet e.user
          m p u r hres
        exact Or.inr ⟨hsel.1, hok.2⟩
    · unfold autocomplete_one
      rw [if_neg hsel]
      exact Or.inl rfl

/-- An already-completed mission record, for the C4 witness. -/
def c4mission : Mission :=
  ⟨1, 2, "quick", "walk", 0, 100, 50, 20, MStatus.completed⟩

/-- A user with Stars to spare, for the C4 witness. -/
def c4user : User := ⟨9, 1, 0, 100, 100, 5, 0, 0, 0, 0, 5, none, none, []⟩

/-- The sweep bundle around `c4mission`, for the C4 witness. -/
def c4env : MissionEnv := ⟨c4mission, none, none⟩

/-- Witness for C4 at a concrete completed mission: no operation touches
it. -/
theorem c4_mission_status_one_directional_witness :
    complete_mission 200 true c4mission none none
      = .error "Mission is not active" ∧
    cancel_mission 200 c4mission none = (false, c4mission, none) ∧
    instant_complete_mission 200 c4mission c4user
      = ((c4mission, c4user), .error "Mission is not active") ∧
    autocomplete_one 200 true c4env = c4env := by
  have h := c4_mission_status_one_directional 200 true c4mission none none
    c4user c4env
  exact ⟨(h.1 (by decide)).1, (h.1 (by decide)).2.1, (h.1 (by decide)).2.2,
    h.2.2.2.2.1 (by decide)⟩

/-- Unfolding equation for one step of the achievement loop. -/
theorem run_achievements_cons (inc : Nat) (a : Achievement)
    (rest : List Achievement) (user : User) (prog : Nat → AchievementProgress) :
    run_achievements inc (a :: rest) user prog =
      ((run_achievements inc rest
          (update_achievement_progress inc a user (prog a.id)).1
          (Function.update prog a.id
            (update_achievement_progress inc a user (prog a.id)).2.1)).1,
       (run_achievements inc rest
          (update_achievement_progress inc a user (prog a.id)).1
          (Function.update prog a.id
            (update_achievement_progress inc a user (prog a.id)).2.1)).2.1,
       (if (update_achievement_progress inc a user (prog a.id)).2.2 then [a]
        else []) ++
         (run_achievements inc rest
           (update_achievement_progress inc a user (prog a.id)).1
           (Function.update prog a.id
             (update_achievement_progress inc a user (prog a.id)).2.1)).2.2) :=
  rfl

/-- Ids that never occur in the processed list keep their progress record. -/
theorem run_achievements_untouched (inc : Nat) (achs : List Achievement)
    (user : User) (prog : Nat → AchievementProgress) (i : Nat)
    (h : i ∉ achs.map Achievement.id) :
    (run_achievements inc achs user prog).2.1 i = prog i := by
  induction achs generalizing user prog with
  | nil => rfl
  | cons a rest ih =>
    simp only [List.map_cons, List.mem_cons] at h
    push_neg at h
    rw [run_achievements_cons]
    rw [ih _ _ h.2]
    exact Function.update_noteq h.1 _ _

/-- Everything reported as newly completed comes from the processed list. -/
theorem run_achievements_newly_mem (inc : Nat) (achs : List Achievement)
    (user : User) (prog : Nat → AchievementProgress) :
    ∀ b ∈ (run_achievements inc achs user prog).2.2, b ∈ achs := by
  induction achs generalizing user prog with
  | nil => simp [run_achievements]
  | cons a rest ih =>
    rw [run_achievements_cons]
    intro b hb
    simp only [List.mem_append] at hb
    rcases hb with hb | hb
    · split at hb
      · simp only [List.mem_singleton] at hb
        exact hb ▸ List.mem_cons_self a rest
      · cases hb
    · exact List.mem_cons_of_mem a (ih _ _ b hb)

/-- An already-completed progress record is frozen by the loop, and its
achievement is never reported as newly completed. -/
theorem run_achievements_completed_frozen (inc : Nat) (achs : List Achievement)
    (user : User) (prog : Nat → AchievementProgress) (i : Nat)
    (h : (prog i).completed = true) :
    (run_achievements inc achs user prog).2.1 i = prog i ∧
    ∀ b ∈ (run_achievements inc achs user prog).2.2, b.id ≠ i := by
  induction achs generalizing user prog with
  | nil => exact ⟨rfl, by simp [run_achievements]⟩
  | cons a rest ih =>
    rw [run_achievements_cons]
    by_cases hai : a.id = i
    · have hstep : update_achievement_progress inc a user (prog a.id)
          = (user, prog a.id, false) := by
        unfold update_achievement_progress
        rw [if_pos (by rw [hai, h])]
      rw [hstep]
      have hupd : Function.update prog a.id (user, prog a.id, false).2.1 = prog := by
        exact Function.update_eq_self a.id prog
      rw [hupd]
      obtain ⟨ih1, ih2⟩ := ih user prog h
      refine ⟨ih1, ?_⟩
      intro b hb
      simp only [if_neg (by simp : ¬((user, prog a.id, false).2.2 = true)),
        List.nil_append] at hb
      exact ih2 b hb
    · have hprog' : (Function.update prog a.id
          (update_achievement_progress inc a user (prog a.id)).2.1) i = prog i :=
        Function.update_noteq (fun he => hai he.symm) _ _
      obtain ⟨ih1, ih2⟩ := ih (update_achievement_progress inc a user (prog a.id)).1
        (Function.update prog a.id
          (update_achievement_progress inc a user (prog a.id)).2.1)
        (by rw [hprog']; exact h)
      refine ⟨by rw [ih1, hprog'], ?_⟩
      intro b hb
      simp only [List.mem_append] at hb
      rcases hb with hb | hb
      · split at hb
        · simp only [List.mem_singleton] at hb
          rw [hb]
          exact hai
        · cases hb
      · exact ih2 b hb

/-- The user account moves exactly by the reward of the loop body's newly
completed achievement (or not at all). -/
theorem update_achievement_progress_user (inc : Nat) (a : Achievement)
    (user : User) (p : AchievementProgress) :
    (update_achievement_progress inc a user p).1.coins =
      user.coins + (if (update_achievement_progress inc a user p).2.2 then
        a.reward_coins else 0) ∧
    (update_achievement_progress inc a user p).1.stars =
      user.stars + (if (update_achievement_progress inc a user p).2.2 then
        a.reward_stars else 0) := by
  unfold update_achievement_progress
  by_cases h1 : p.completed = true
  · rw [if_pos h1]
    simp
  · rw [if_neg h1]
    dsimp only []
    by_cases h2 : a.requirement_value ≤ p.current_value + inc
    · rw [if_pos h2]
      simp
    · rw [if_neg h2]
      simp

/-- Coins and Stars after the loop are the initial balance plus the rewards
of exactly the achievements reported newly completed. -/
theorem run_achievements_rewards (inc : Nat) (achs : List Achievement)
    (user : User) (prog : Nat → AchievementProgress) :
    (run_achievements inc achs user prog).1.coins =
      user.coins + ((run_achievements inc achs user prog).2.2.map
        Achievement.reward_coins).sum ∧
    (run_achievements inc achs user prog).1.stars =
      user.stars + ((run_achievements inc achs user prog).2.2.map
        Achievement.reward_stars).sum := by
  induction achs generalizing user prog with
  | nil => simp [run_achievements]
  | cons a rest ih =>
    rw [run_achievements_cons]
    obtain ⟨ihc, ihs⟩ := ih
      (update_achievement_progress inc a user (prog a.id)).1
      (Function.update prog a.id
        (update_achievement_progress inc a user (prog a.id)).2.1)
    obtain ⟨hc, hs⟩ := update_achievement_progress_user inc a user (prog a.id)
    constructor
    · rw [ihc, hc]
      split
      · simp only [List.map_cons, List.sum_cons, List.singleton_append]
        omega
      · simp only [List.nil_append]
        omega
    · rw [ihs, hs]
      split
      · simp only [List.map_cons, List.sum_cons, List.singleton_append]
        omega
      · simp only [List.nil_append]
        omega

/-- Main progress lemma: for a not-yet-completed achievement occurring in a
list with distinct ids, the loop adds the increment, completes the record
exactly when the threshold is reached, and reports the achievement as newly
completed exactly then. -/
theorem run_achievements_progress (inc : Nat) (achs : List Achievement)
    (user : User) (prog : Nat → AchievementProgress) (a : Achievement)
    (hnodup : (achs.map Achievement.id).Nodup) (hmem : a ∈ achs)
    (hnc : (prog a.id).completed = false) :
    (run_achievements inc achs user prog).2.1 a.id =
      ⟨(prog a.id).current_value + inc,
        decide (a.requirement_value ≤ (prog a.id).current_value + inc)⟩ ∧
    (a ∈ (run_achievements inc achs user prog).2.2 ↔
      a.requirement_value ≤ (prog a.id).current_value + inc) := by
  induction achs generalizing user prog with
  | nil => cases hmem
  | cons b rest ih =>
    rw [run_achievements_cons]
    have hbrest : b.id ∉ rest.map Achievement.id :=
      (List.nodup_cons.mp (by simpa using hnodup)).1
    rcases List.mem_cons.mp hmem with hab | harest
    · subst hab
      have hstep : (update_achievement_progress inc a user (prog a.id)).2 =
          (⟨(prog a.id).current_value + inc,
            decide (a.requirement_value ≤ (prog a.id).current_value + inc)⟩,
           decide (a.requirement_value ≤ (prog a.id).current_value + inc)) := by
        unfold update_achievement_progress
        rw [if_neg (by rw [hnc]; exact Bool.false_ne_true)]
        dsimp only []
        by_cases hth : a.requirement_value ≤ (prog a.id).current_value + inc
        · rw [if_pos hth]
          simp [hth]
        · rw [if_neg hth]
          simp [hth]
      have hfrozen := run_achievements_untouched inc rest
        (update_achievement_progress inc a user (prog a.id)).1
        (Function.update prog a.id
          (update_achievement_progress inc a user (prog a.id)).2.1)
        a.id hbrest
      have hnotnewly : a ∉ (run_achievements inc rest
          (update_achievement_progress inc a user (prog a.id)).1
          (Function.update prog a.id
            (update_achievement_progress inc a user (prog a.id)).2.1)).2.2 := by
        intro hb
        have := run_achievements_newly_mem inc rest _ _ a hb
        exact hbrest (List.mem_map_of_mem Achievement.id this)
      constructor
      · rw [hfrozen, Function.update_same]
        exact congrArg Prod.fst hstep
      · rw [show (update_achievement_progress inc a user (prog a.id)).2.2
          = decide (a.requirement_value ≤ (prog a.id).current_value + inc)
          from congrArg Prod.snd hstep]
        by_cases hth : a.requirement_value ≤ (prog a.id).current_value + inc
        · rw [if_pos (by simpa using hth)]
          simp [hth]
        · rw [if_neg (by simpa using hth)]
          simp only [List.nil_append]
          exact ⟨fun hb => absurd hb hnotnewly, fun hb => absurd hb hth⟩
    · have haid : a.id ≠ b.id := by
        intro he
        apply hbrest
        rw [← he]
        exact List.mem_map_of_mem Achievement.id harest
      have hprog' : (Function.update prog b.id
          (update_achievement_progress inc b user (prog b.id)).2.1) a.id
          = prog a.id := Function.update_noteq haid _ _
      obtain ⟨ih1, ih2⟩ := ih
        (update_achievement_progress inc b user (prog b.id)).1
        (Function.update prog b.id
          (update_achievement_progress inc b user (prog b.id)).2.1)
        ((List.nodup_cons.mp (by simpa using hnodup)).2) harest
        (by rw [hprog']; exact hnc)
      constructor
      · rw [ih1, hprog']
      · rw [hprog'] at ih2
        rw [← ih2]
        simp only [List.mem_append]
        constructor
        · intro hb
          rcases hb with hb | hb
          · exfalso
            split at hb
            · simp only [List.mem_singleton] at hb
              exact haid (hb ▸ rfl)
            · cases hb
          · exact hb
        · exact fun hb => Or.inr hb

/-- C5: once a progress record is completed, later `recordProgress` calls
with the same metric never change its counter, never pay its reward again
and never report it newly completed; while it is incomplete, each call adds
the increment and completes (reporting it newly completed and paying its
reward) exactly when the counter first reaches the threshold; the account
moves by exactly the rewards of the newly completed definitions. -/
theorem c5_achievement_reward_once (achievements : List Achievement)
    (achievement_type : String) (inc : Nat) (user : User)
    (prog : Nat → AchievementProgress) (a : Achievement)
    (hnodup : (achievements.map Achievement.id).Nodup)
    (hmem : a ∈ achievements) (htype : a.requirement_type = achievement_type) :
    ((prog a.id).completed = true →
      (check_and_update_achievements achievements achievement_type inc user
        prog).2.1 a.id = prog a.id ∧
      a ∉ (check_and_update_achievements achievements achievement_type inc user
        prog).2.2) ∧
    ((prog a.id).completed = false →
      (check_and_update_achievements achievements achievement_type inc user
          prog).2.1 a.id
        = ⟨(prog a.id).current_value + inc,
            decide (a.requirement_value ≤ (prog a.id).current_value + inc)⟩ ∧
      (a ∈ (check_and_update_achievements achievements achievement_type inc user
          prog).2.2 ↔
        a.requirement_value ≤ (prog a.id).current_value + inc)) ∧
    (check_and_update_achievements achievements achievement_type inc user
        prog).1.coins
      = user.coins + ((check_and_update_achievements achievements
          achievement_type inc user prog).2.2.map Achievement.reward_coins).sum ∧
    (check_and_update_achievements achievements achievement_type inc user
        prog).1.stars
      = user.stars + ((check_and_update_achievements achievements
          achievement_type inc user prog).2.2.map Achievement.reward_stars).sum := by
  have hmemF : a ∈ achievements.filter
      (fun x => x.requirement_type == achievement_type) :=
    List.mem_filter.mpr ⟨hmem, by simp [htype]⟩
  have hnodupF : ((achievements.filter
      (fun x => x.requirement_type == achievement_type)).map
      Achievement.id).Nodup :=
    List.Nodup.sublist ((List.filter_sublist achievements).map Achievement.id)
      hnodup
  unfold check_and_update_achievements
  refine ⟨?_, ?_, (run_achievements_rewards inc _ user prog).1,
    (run_achievements_rewards inc _ user prog).2⟩
  · intro hc
    obtain ⟨h1, h2⟩ := run_achievements_completed_frozen inc
      (achievements.filter (fun x => x.requirement_type == achievement_type))
      user prog a.id hc
    exact ⟨h1, fun hb => (h2 a hb) rfl⟩
  · intro hc
    exact run_achievements_progress inc _ user prog a hnodupF hmemF hc

/-- A three-steps-of-missions achievement, for the C5 witness. -/
def c5ach : Achievement := ⟨1, "missions", 3, 100, 5⟩

/-- A two-definition achievement table, for the C5 witness. -/
def c5achs : List Achievement := [c5ach, ⟨2, "raids", 1, 50, 0⟩]

/-- Progress map with every counter at 2 and nothing completed. -/
def c5prog : Nat → AchievementProgress := fun _ => ⟨2, false⟩

/-- A fresh user account, for the C5 witness. -/
def c5user : User := ⟨11, 1, 0, 0, 0, 5, 0, 0, 0, 0, 5, none, none, []⟩

/-- Witness for C5 at a concrete call that pushes the counter from 2 to the
threshold 3. -/
theorem c5_achievement_reward_once_witness :
    ((c5prog c5ach.id).completed = true →
      (check_and_update_achievements c5achs "missions" 1 c5user c5prog).2.1
        c5ach.id = c5prog c5ach.id ∧
      c5ach ∉ (check_and_update_achievements c5achs "missions" 1 c5user
        c5prog).2.2) ∧
    ((c5prog c5ach.id).completed = false →
      (check_and_update_achievements c5achs "missions" 1 c5user c5prog).2.1
          c5ach.id
        = ⟨(c5prog c5ach.id).current_value + 1,
            decide (c5ach.requirement_value ≤
              (c5prog c5ach.id).current_value + 1)⟩ ∧
      (c5ach ∈ (check_and_update_achievements c5achs "missions" 1 c5user
          c5prog).2.2 ↔
        c5ach.requirement_value ≤ (c5prog c5ach.id).current_value + 1)) ∧
    (check_and_update_achievements c5achs "missions" 1 c5user c5prog).1.coins
      = c5user.coins + ((check_and_update_achievements c5achs "missions" 1
          c5user c5prog).2.2.map Achievement.reward_coins).sum ∧
    (check_and_update_achievements c5achs "missions" 1 c5user c5prog).1.stars
      = c5user.stars + ((check_and_update_achievements c5achs "missions" 1
          c5user c5prog).2.2.map Achievement.reward_stars).sum :=
  c5_achievement_reward_once c5achs "missions" 1 c5user c5prog c5ach
    (by decide) (by decide) rfl

/-- Rejecting verdicts of the post-reset raid checks carry the attacker
record they were given, unchanged. -/
theorem can_raid_checks_attacker (now : Nat) (att : User)
    (last_raid_between : Option Nat) (defender : Option User) (ok : Bool)
    (msg : Option String) (att' : User)
    (h : can_raid_checks now att last_raid_between defender
      = .verdict ok msg att') : att' = att := by
  unfold can_raid_checks at h
  split at h
  · injection h with h1 h2 h3
    exact h3.symm
  · dsimp only [] at h
    split at h
    · injection h with h1 h2 h3
      exact h3.symm
    · split at h
      · injection h with h1 h2 h3
        exact h3.symm
      · injection h with h1 h2 h3
        exact h3.symm

/-- C8 (amended): every listed validation rejection returns with the domain
state exactly as it was — the busy / defending / fatigued / invalid-tier
mission start, the insufficient-Stars instant completion, the invalid-trap
and insufficient-coins purchase, and every raid-eligibility rejection
(self-raid, exhausted counter, cooldown, shield) — except that the
raid-eligibility check may first initialize a missing `last_raid_reset`
timestamp on the attacker, a mutation the source commits even when the raid
is then rejected (see the counterexample). -/
theorem c8_rejection_leaves_state (now : Nat) (pet : Pet)
    (mission_type mission_name : String) (mission : Mission) (user : User)
    (trap_type : String) (attacker_id defender_id : Nat) (attacker : User)
    (last_raid_between : Option Nat) (defender : Option User) :
    (∀ p' e, start_mission now pet mission_type mission_name
        = (p', .error e) → p' = pet) ∧
    (∀ s e, instant_complete_mission now mission user = (s, .error e) →
      s = (mission, user)) ∧
    (∀ u' e, buy_trap user trap_type = (u', .error e) → u' = user) ∧
    (∀ msg att', can_raid_target now attacker_id defender_id attacker
        last_raid_between defender = .verdict false msg att' →
      att' = attacker ∨
      att' = { attacker with last_raid_reset := some now }) := by
  refine ⟨?_, ?_, ?_, ?_⟩
  · intro p' e h
    unfold start_mission at h
    split at h
    · exact (Prod.ext_iff.mp h).1.symm
    · split at h
      · exact (Prod.ext_iff.mp h).1.symm
      · split at h
        · exact (Prod.ext_iff.mp h).1.symm
        · split at h
          · exact (Prod.ext_iff.mp h).1.symm
          · simp at h
  · intro s e h
    unfold instant_complete_mission at h
    split at h
    · exact (Prod.ext_iff.mp h).1.symm
    · dsimp only [] at h
      split at h
      · exact (Prod.ext_iff.mp h).1.symm
      · simp at h
  · intro u' e h
    unfold buy_trap at h
    split at h
    · exact (Prod.ext_iff.mp h).1.symm
    · dsimp only [] at h
      split at h
      · exact (Prod.ext_iff.mp h).1.symm
      · simp at h
  · intro msg att' h
    unfold can_raid_target at h
    split at h
    · injection h with h1 h2 h3
      exact Or.inl h3.symm
    · split at h
      · split at h
        · cases h
        · exact Or.inl (can_raid_checks_attacker now attacker
            last_raid_between defender false msg att' h)
      · exact Or.inr (can_raid_checks_attacker now
          { attacker with last_raid_reset := some now }
          last_raid_between defender false msg att' h)

/-- An attacker with no free raids left and no `last_raid_reset` yet, for
the C8 counterexample and witness. -/
def c8attacker : User := ⟨1, 1, 0, 0, 0, 5, 0, 0, 0, 0, 0, none, none, []⟩

/-- C8 counterexample: the raid is rejected for lack of free raids, yet the
eligibility check has already initialized (and the source committed)
`last_raid_reset` on the attacker — the state after the rejection differs
from the state before the call, refuting the claim as stated. -/
theorem c8_counterexample :
    can_raid_target 1000 1 2 c8attacker none none
      = .verdict false (some "no free raids left")
          { c8attacker with last_raid_reset := some 1000 } ∧
    ({ c8attacker with last_raid_reset := some 1000 } : User) ≠ c8attacker := by
  exact ⟨by decide, by decide⟩

/-- A pet already on a mission, for the C8 witness. -/
def c8pet : Pet :=
  ⟨5, 1, Rarity.common, 1, 0, 5, 10, 100, 50, false, 0, true, false,
   none, "egg"⟩

/-- An active mission far from completion, for the C8 witness. -/
def c8mission : Mission :=
  ⟨1, 5, "epic", "quest", 0, 43200, 2000, 800, MStatus.active⟩

/-- Witness for C8 at concrete rejected calls: busy-pet mission start,
insufficient-Stars instant completion, invalid trap purchase, self-raid. -/
theorem c8_rejection_leaves_state_witness :
    (start_mission 0 c8pet "quick" "walk").1 = c8pet ∧
    (instant_complete_mission 0 c8mission c8attacker).1
      = (c8mission, c8attacker) ∧
    (buy_trap c8attacker "moat").1 = c8attacker ∧
    ((can_raid_target 0 1 1 c8attacker none none
        = .verdict false (some "cannot attack yourself") c8attacker) →
      c8attacker = c8attacker ∨
      c8attacker = { c8attacker with last_raid_reset := some 0 }) := by
  have h := c8_rejection_leaves_state 0 c8pet "quick" "walk" c8mission
    c8attacker "moat" 1 1 c8attacker none none
  refine ⟨?_, ?_, ?_, ?_⟩
  · exact h.1 (start_mission 0 c8pet "quick" "walk").1
      "Pet is already on a mission" rfl
  · exact h.2.1 (instant_complete_mission 0 c8mission c8attacker).1
      "Not enough Stars" rfl
  · exact h.2.2.1 (buy_trap c8attacker "moat").1 "Invalid trap type" rfl
  · exact fun hv => h.2.2.2 (some "cannot attack yourself") c8attacker hv
